/-
Verification of the WebMarket marketplace backend (backend/main.py).

The catalog/query pipeline and the cart store are embedded shallowly:
Python dicts become structures, the module-level `templates_db` list
becomes a concrete Lean list, handlers become pure functions, FastAPI
validation failures and `HTTPException` become `Except` errors, and the
mutable `cart_db` becomes explicit state passing.  Float prices/ratings
are embedded as rationals (every literal in the seed data is an exact
decimal, and only ordering, sums and products of them are ever used, so
the embedding is order- and arithmetic-faithful).  Python `list.sort`
(Timsort, documented stable, `reverse=True` reverses key comparisons but
keeps ties in original order) is embedded as `List.mergeSort` with the
correspondingly oriented boolean comparison.
-/
import Mathlib

namespace WebMarket

/-- A template record, from the pydantic `Template` model. -/
structure Template where
  id : Nat
  title : String
  description : String
  price : ℚ
  category : String
  author : String
  image_url : String
  downloads : Nat
  rating : ℚ
  created_at : String
  tags : List String
  deriving Repr, DecidableEq, Inhabited

/-- The seed catalog `templates_db` from backend/main.py. -/
def templates_db : List Template :=
  [ { id := 1
    , title := "ModernShop Pro"
    , description := "A fully responsive e-commerce template built with the latest technologies. Features include product filtering, shopping cart, payment integration, and a beautiful admin dashboard. Perfect for launching your online store quickly and professionally."
    , price := 89
    , category := "E-commerce"
    , author := "TechStudio"
    , image_url := "https://images.unsplash.com/photo-1555066931-4365d14bab8c?w=400"
    , downloads := 1250
    , rating := mkRat 48 10
    , created_at := "2024-01-15T10:00:00Z"
    , tags := ["responsive", "ecommerce", "modern", "dashboard"] }
  , { id := 2
    , title := "Creative Portfolio"
    , description := "Stunning portfolio template for creatives, designers, and artists. Showcases your work with beautiful galleries, smooth animations, and mobile-first design."
    , price := 69
    , category := "Portfolio"
    , author := "DesignLab"
    , image_url := "https://images.unsplash.com/photo-1517180102446-f3ece451e9d8?w=400"
    , downloads := 890
    , rating := mkRat 49 10
    , created_at := "2024-01-10T14:30:00Z"
    , tags := ["portfolio", "creative", "gallery", "animation"] }
  , { id := 3
    , title := "Business Suite"
    , description := "Complete business website solution with multiple page layouts, contact forms, team sections, and service pages. Perfect for consulting, agencies, and corporate websites."
    , price := 129
    , category := "Business"
    , author := "ProDevs"
    , image_url := "https://images.unsplash.com/photo-1504868584819-f8e8b4b6d7e3?w=400"
    , downloads := 567
    , rating := mkRat 47 10
    , created_at := "2024-01-05T09:15:00Z"
    , tags := ["business", "corporate", "professional", "multi-page"] }
  , { id := 4
    , title := "Tech Startup Kit"
    , description := "Modern startup landing page with hero sections, feature highlights, pricing tables, and testimonials. Built for SaaS companies and tech startups."
    , price := 149
    , category := "Landing Page"
    , author := "CodeCraft"
    , image_url := "https://images.unsplash.com/photo-1519389950473-47ba0277781c?w=400"
    , downloads := 723
    , rating := mkRat 46 10
    , created_at := "2024-01-08T16:45:00Z"
    , tags := ["startup", "saas", "landing", "modern"] }
  , { id := 5
    , title := "Restaurant Pro"
    , description := "Elegant restaurant website with menu displays, reservation system, gallery, and contact information. Perfect for restaurants, cafes, and food businesses."
    , price := 79
    , category := "Restaurant"
    , author := "WebMasters"
    , image_url := "https://images.unsplash.com/photo-1498050108023-c5249f4df085?w=400"
    , downloads := 445
    , rating := mkRat 45 10
    , created_at := "2024-01-12T11:20:00Z"
    , tags := ["restaurant", "food", "menu", "elegant"] }
  , { id := 6
    , title := "Blog Master"
    , description := "Clean and minimal blog template with article layouts, author pages, categories, and search functionality. Perfect for personal blogs and content creators."
    , price := 49
    , category := "Blog"
    , author := "ContentPro"
    , image_url := "https://images.unsplash.com/photo-1499750310107-5fef28a66643?w=400"
    , downloads := 892
    , rating := mkRat 44 10
    , created_at := "2024-01-18T13:10:00Z"
    , tags := ["blog", "minimal", "content", "clean"] } ]

/-- Python's `str.lower()`, embedded as per-character lowering.  This
agrees with `String.toLower` (`s.map Char.toLower`) but recurses over
the character list, so it evaluates by `rfl`/`decide`.  Like Lean's
`Char.toLower` it only maps ASCII `A`–`Z`; Python's full Unicode case
mapping coincides with it on all strings the catalog can ever compare
equal to, since every character stored in the catalog is ASCII. -/
def pyLower (s : String) : String := ⟨s.data.map Char.toLower⟩

/-- The `sort_by` query parameter; the `regex` validation in
`get_templates` admits exactly these four values. -/
inductive SortBy where
  | downloads | rating | price | created_at
  deriving Repr, DecidableEq

/-- The `order` query parameter; the `regex` validation admits exactly
`asc` and `desc`. -/
inductive SortOrder where
  | asc | desc
  deriving Repr, DecidableEq

/-- The sort key comparison `key(a) <= key(b)` used by
`filtered_templates.sort(key=...)`: string comparison for `created_at`
(Python compares strings lexicographically by code point, as does the
`String` order), numeric comparison otherwise. -/
def fieldLe (sb : SortBy) (a b : Template) : Bool :=
  match sb with
  | .downloads => decide (a.downloads ≤ b.downloads)
  | .rating => decide (a.rating ≤ b.rating)
  | .price => decide (a.price ≤ b.price)
  | .created_at => decide (a.created_at ≤ b.created_at)

/-- Orientation of the comparison: `list.sort(reverse=True)` is a stable
sort in which all key comparisons are reversed, i.e. a stable sort by
the flipped comparison. -/
def sortLe (sb : SortBy) (ord : SortOrder) (a b : Template) : Bool :=
  match ord with
  | .asc => fieldLe sb a b
  | .desc => fieldLe sb b a

/-- The category filter at the top of `get_templates`: Python's
`if category:` skips the filter both for `None` and for the empty
string (falsy), otherwise keeps templates whose lower-cased category
equals the lower-cased parameter. -/
def applyCategory (category : Option String) (l : List Template) : List Template :=
  match category with
  | none => l
  | some c =>
      if c = "" then l
      else l.filter (fun t => pyLower t.category == pyLower c)

/-- Response shape of `GET /api/templates`. -/
structure ListResult where
  templates : List Template
  total : Nat
  limit : Nat
  offset : Nat
  has_more : Bool
  deriving Repr, DecidableEq

/-- `get_templates`: filter by category, stable-sort by the chosen field
and order, then paginate with the Python slice
`filtered[offset : offset+limit]` (both bounds non-negative after the
`ge`-validation, so the slice is `drop offset` then `take limit`).
`total` is the pre-pagination filtered count and
`has_more = offset + limit < total`. -/
def get_templates (category : Option String) (limit offset : Nat)
    (sort_by : SortBy) (order : SortOrder) : ListResult :=
  let filtered := applyCategory category templates_db
  let sorted := filtered.mergeSort (sortLe sort_by order)
  let total := sorted.length
  { templates := (sorted.drop offset).take limit
  , total := total
  , limit := limit
  , offset := offset
  , has_more := decide (offset + limit < total) }

/-- Python's `l[:k]` for an arbitrary integer `k` (the `limit` of the
by-category endpoint has no range validation): for `k ≥ 0` it is
`take k`, for `k < 0` the stop index is `max 0 (len + k)`. -/
def pyTruncate (l : List Template) (k : Int) : List Template :=
  if 0 ≤ k then l.take k.toNat
  else l.take (l.length - min l.length (-k).toNat)

/-- Response shape of `GET /api/templates/category/{category}`. -/
structure ByCategoryResult where
  category : String
  templates : List Template
  total : Nat
  deriving Repr, DecidableEq

/-- `get_templates_by_category`: case-insensitive exact category match,
truncation of the result by the unvalidated `limit`, and the full
filtered count as `total`. -/
def get_templates_by_category (category : String) (limit : Int) : ByCategoryResult :=
  let filtered := templates_db.filter (fun t => pyLower t.category == pyLower category)
  { category := category
  , templates := pyTruncate filtered limit
  , total := filtered.length }

/-- Python's `needle in hay` on character lists: `needle` occurs as a
contiguous run somewhere in `hay`. -/
def strContains (needle : List Char) : List Char → Bool
  | [] => needle.isEmpty
  | c :: rest => needle.isPrefixOf (c :: rest) || strContains needle rest

/-- The match test of `search_templates`: the lower-cased query occurs
in the lower-cased title, description, or some lower-cased tag. -/
def matchesQuery (q : String) (t : Template) : Bool :=
  strContains (pyLower q).data (pyLower t.title).data ||
  strContains (pyLower q).data (pyLower t.description).data ||
  t.tags.any (fun tag => strContains (pyLower q).data (pyLower tag).data)

/-- The `continue`-guards of the search loop, as one conjunction: a
matching template is kept unless some optional filter rejects it.
`if category and ...` is again falsy for `None` and for `""`. -/
def passesFilters (category : Option String) (min_price max_price min_rating : Option ℚ)
    (t : Template) : Bool :=
  (match category with
   | none => true
   | some c => if c = "" then true else pyLower t.category == pyLower c) &&
  (match min_price with
   | none => true
   | some m => !decide (t.price < m)) &&
  (match max_price with
   | none => true
   | some m => !decide (t.price > m)) &&
  (match min_rating with
   | none => true
   | some m => !decide (t.rating < m))

/-- Response shape of `GET /api/search` (`SearchResponse`). -/
structure SearchResponse where
  query : String
  category : Option String
  results : List Template
  total : Nat
  deriving Repr, DecidableEq

/-- `search_templates`: the loop appends, in catalog order, every
template that matches the query and survives all optional filters. -/
def search_templates (q : String) (category : Option String)
    (min_price max_price min_rating : Option ℚ) : SearchResponse :=
  let results := templates_db.filter
    (fun t => matchesQuery q t && passesFilters category min_price max_price min_rating t)
  { query := q
  , category := category
  , results := results
  , total := results.length }

/-- A cart entry, from the pydantic `CartItem` model. -/
structure CartItem where
  id : Nat
  template_id : Nat
  template : Template
  quantity : Nat
  added_at : String
  deriving Repr, DecidableEq

/-- The two error responses the cart handlers can produce: a FastAPI
parameter-validation failure (HTTP 422) or an `HTTPException 404`. -/
inductive CartError where
  | validation | notFound
  deriving Repr, DecidableEq

/-- Aggregate view returned by `GET /api/cart`. -/
structure CartView where
  items : List CartItem
  total_items : Nat
  total_price : ℚ
  deriving Repr, DecidableEq

/-- `get_cart`: all items in insertion order, `total_items` as the
number of cart entries (`len(cart_db)`), `total_price` as the sum of
`price * quantity`. -/
def get_cart (cart : List CartItem) : CartView :=
  { items := cart
  , total_items := cart.length
  , total_price := (cart.map (fun item => item.template.price * (item.quantity : ℚ))).sum }

/-- In-place `existing_item["quantity"] += 1`: the first entry with the
given template id gets its quantity incremented. -/
def incQuantity (template_id : Nat) : List CartItem → List CartItem
  | [] => []
  | item :: rest =>
      if item.template_id == template_id then
        { item with quantity := item.quantity + 1 } :: rest
      else item :: incQuantity template_id rest

/-- `add_to_cart`: 404 when the template id is unknown; increment the
first existing entry for that template id, else append a fresh entry
with `id = len(cart_db) + 1` and quantity 1.  `added_at` comes from
`datetime.now()`, passed here as the parameter `now`.  Returns the
created/updated item together with the new store contents. -/
def add_to_cart (cart : List CartItem) (template_id : Nat) (now : String) :
    Except CartError (CartItem × List CartItem) :=
  match templates_db.find? (fun t => t.id == template_id) with
  | none => .error .notFound
  | some template =>
    match cart.find? (fun item => item.template_id == template_id) with
    | some item =>
        .ok ({ item with quantity := item.quantity + 1 }, incQuantity template_id cart)
    | none =>
        let cart_item : CartItem :=
          { id := cart.length + 1
          , template_id := template_id
          , template := template
          , quantity := 1
          , added_at := now }
        .ok (cart_item, cart ++ [cart_item])

/-- In-place `item["quantity"] = quantity` on the first entry with the
given item id. -/
def setQuantity (item_id q : Nat) : List CartItem → List CartItem
  | [] => []
  | item :: rest =>
      if item.id == item_id then { item with quantity := q } :: rest
      else item :: setQuantity item_id q rest

/-- `update_cart_item`: the query validation `ge=1, le=10` rejects
quantities outside `[1,10]` before the handler runs (the parameter is
an `Int`, since Python accepts any integer there); then 404 if no entry
has the item id, else the first such entry's quantity is set. -/
def update_cart_item (cart : List CartItem) (item_id : Nat) (quantity : Int) :
    Except CartError (CartItem × List CartItem) :=
  if quantity < 1 ∨ 10 < quantity then .error .validation
  else
    match cart.find? (fun item => item.id == item_id) with
    | none => .error .notFound
    | some item =>
        .ok ({ item with quantity := quantity.toNat },
             setQuantity item_id quantity.toNat cart)

/-- `remove_from_cart`: rebuild the store without entries bearing the
item id; 404 when the length did not change (in that case the rebuilt
store has exactly the original contents). -/
def remove_from_cart (cart : List CartItem) (item_id : Nat) :
    Except CartError (List CartItem) :=
  let remaining := cart.filter (fun item => item.id != item_id)
  if remaining.length == cart.length then .error .notFound
  else .ok remaining

/-- `clear_cart`: unconditionally empty the store. -/
def clear_cart (_cart : List CartItem) : List CartItem := []

/-- One request against the cart endpoints (the `now` string of an add
is the wall-clock timestamp of the request). -/
inductive CartOp where
  | add (template_id : Nat) (now : String)
  | update (item_id : Nat) (quantity : Int)
  | remove (item_id : Nat)
  | clear
  deriving Repr, DecidableEq

/-- Effect of one request on the store.  A handler that raises leaves
the contents unchanged (`remove_from_cart` reassigns `cart_db` before
raising, but only when the filter removed nothing, so the contents are
the same). -/
def applyOp (cart : List CartItem) : CartOp → List CartItem
  | .add template_id now =>
      match add_to_cart cart template_id now with
      | .ok (_, cart') => cart'
      | .error _ => cart
  | .update item_id quantity =>
      match update_cart_item cart item_id quantity with
      | .ok (_, cart') => cart'
      | .error _ => cart
  | .remove item_id =>
      match remove_from_cart cart item_id with
      | .ok cart' => cart'
      | .error _ => cart
  | .clear => clear_cart cart

/-- The store contents after a sequence of requests, starting from the
empty cart the process boots with. -/
def runOps (ops : List CartOp) : List CartItem :=
  ops.foldl applyOp []

/-- The two templates tie in the chosen sort field: the key comparison
holds in both directions. -/
def fieldEq (sb : SortBy) (a b : Template) : Bool :=
  fieldLe sb a b && fieldLe sb b a

/-- C1: for valid paging parameters the page length is
`min(limit, max(0, total - offset))`, `has_more` is `offset + limit < total`,
and `total` is the size of the category-filtered set before pagination. -/
theorem pagination_correct (category : Option String) (limit offset : Nat)
    (sort_by : SortBy) (order : SortOrder) (hlo : 1 ≤ limit) (hhi : limit ≤ 100) :
    ((get_templates category limit offset sort_by order).templates.length : ℤ)
        = min (limit : ℤ)
            (max 0 (((get_templates category limit offset sort_by order).total : ℤ) - offset))
      ∧ ((get_templates category limit offset sort_by order).has_more = true
          ↔ offset + limit < (get_templates category limit offset sort_by order).total)
      ∧ (get_templates category limit offset sort_by order).total
          = (applyCategory category templates_db).length := by
  refine ⟨?_, ?_, ?_⟩
  · simp only [get_templates, List.length_take, List.length_drop, List.length_mergeSort]
    push_cast
    omega
  · simp [get_templates]
  · simp [get_templates]

/-- Witness for C1 at `limit = 10`, `offset = 4`, no category filter. -/
theorem pagination_correct_witness :
    (1 ≤ 10 ∧ 10 ≤ 100)
      ∧ (((get_templates none 10 4 SortBy.downloads SortOrder.desc).templates.length : ℤ)
            = min (10 : ℤ)
                (max 0 (((get_templates none 10 4 SortBy.downloads SortOrder.desc).total : ℤ) - 4))
          ∧ ((get_templates none 10 4 SortBy.downloads SortOrder.desc).has_more = true
              ↔ 4 + 10 < (get_templates none 10 4 SortBy.downloads SortOrder.desc).total)
          ∧ (get_templates none 10 4 SortBy.downloads SortOrder.desc).total
              = (applyCategory none templates_db).length) :=
  ⟨⟨by decide, by decide⟩,
   pagination_correct none 10 4 SortBy.downloads SortOrder.desc (by decide) (by decide)⟩

/-- C6: the request sequence add(1), add(2), remove(1), add(3) leaves
the store holding two different items (template ids 2 and 3) that both
carry the cart-item id 2, because the id of the third add was computed
as `len(cart_db) + 1 = 2` after the deletion. -/
theorem cart_item_id_reuse :
    ∃ a b : CartItem,
      runOps [.add 1 "t1", .add 2 "t2", .remove 1, .add 3 "t3"] = [a, b]
        ∧ a ≠ b ∧ a.id = b.id := by
  refine ⟨_, _, rfl, ?_, rfl⟩
  intro h
  have : (2 : Nat) = 3 := congrArg CartItem.template_id h
  simp at this

/-- C10: in the duplicated-id state of C6 (two items with id 2), one
remove call for id 2 succeeds and deletes both items. -/
theorem remove_deletes_all_matching_ids :
    (runOps [.add 1 "t1", .add 2 "t2", .remove 1, .add 3 "t3"]).map (fun i => i.id) = [2, 2]
      ∧ remove_from_cart (runOps [.add 1 "t1", .add 2 "t2", .remove 1, .add 3 "t3"]) 2
          = .ok [] :=
  ⟨rfl, rfl⟩

/-- C4: the cart view lists all items in insertion order, counts cart
entries (not quantities) in `total_items`, sums `price * quantity` into
`total_price`; and after adding template 1 twice to the empty cart the
store holds a single item of quantity 2, with `total_items = 1` and
`total_price = 178`. -/
theorem cart_view_correct :
    (∀ cart : List CartItem,
        (get_cart cart).items = cart
          ∧ (get_cart cart).total_items = cart.length
          ∧ (get_cart cart).total_price
              = (cart.map (fun item => item.template.price * (item.quantity : ℚ))).sum)
      ∧ (∀ now1 now2 : String, ∃ (item1 item2 : CartItem) (cart1 cart2 : List CartItem),
          add_to_cart [] 1 now1 = .ok (item1, cart1)
            ∧ add_to_cart cart1 1 now2 = .ok (item2, cart2)
            ∧ cart2 = [item2]
            ∧ item2.template_id = 1
            ∧ item2.quantity = 2
            ∧ (get_cart cart2).total_items = 1
            ∧ (get_cart cart2).total_price = 178) := by
  refine ⟨fun cart => ⟨rfl, rfl, rfl⟩, fun now1 now2 => ⟨_, _, _, _, rfl, rfl, rfl, rfl, rfl, rfl, ?_⟩⟩
  show (89 : ℚ) * ((2 : ℕ) : ℚ) + 0 = 178
  norm_num

/-- C8: removing id `item_id` fails with 404 exactly when no cart entry
has that id; the reassigned store contents equal the original ones on
failure; and when a matching entry exists the call succeeds, leaving
exactly the entries whose id differs. -/
theorem remove_not_found_iff (cart : List CartItem) (item_id : Nat) :
    (remove_from_cart cart item_id = .error .notFound ↔ ∀ item ∈ cart, item.id ≠ item_id)
      ∧ ((∀ item ∈ cart, item.id ≠ item_id) →
          cart.filter (fun item => item.id != item_id) = cart)
      ∧ ((∃ item ∈ cart, item.id = item_id) →
          remove_from_cart cart item_id
            = .ok (cart.filter (fun item => item.id != item_id))) := by
  have hiff : (cart.filter (fun item => item.id != item_id)).length = cart.length
      ↔ ∀ item ∈ cart, item.id ≠ item_id := by
    rw [List.filter_length_eq_length]
    constructor <;> intro h item hmem <;> simpa using h item hmem
  refine ⟨?_, ?_, ?_⟩
  · rw [remove_from_cart]
    split
    · next h => simpa using hiff.mp (by simpa using h)
    · next h =>
        constructor
        · intro hcontra
          exact Except.noConfusion hcontra
        · intro hall
          exact absurd (hiff.mpr hall) (by simpa using h)
  · intro hall
    exact List.filter_eq_self.mpr (by simpa using hall)
  · rintro ⟨item, hmem, hid⟩
    rw [remove_from_cart]
    split
    · next h =>
        exfalso
        have := hiff.mp (by simpa using h) item hmem
        exact this hid
    · rfl

/-- Witness for C8: removing id 9999 from the empty cart is a 404, and
removing id 1 after a single add succeeds with the filtered store. -/
theorem remove_not_found_iff_witness :
    remove_from_cart [] 9999 = .error .notFound
      ∧ remove_from_cart (runOps [.add 1 "t1"]) 1
          = .ok ((runOps [.add 1 "t1"]).filter (fun item => item.id != 1)) :=
  ⟨(remove_not_found_iff [] 9999).1.mpr (by simp),
   (remove_not_found_iff (runOps [.add 1 "t1"]) 1).2.2 (by decide)⟩

/-- The six seed categories are pairwise distinct, so any category
string matches at most one catalog entry. -/
lemma filter_category_length_le_one (s : String) :
    (templates_db.filter (fun t => pyLower t.category == pyLower s)).length ≤ 1 := by
  have e1 : pyLower "E-commerce" = "e-commerce" := rfl
  have e2 : pyLower "Portfolio" = "portfolio" := rfl
  have e3 : pyLower "Business" = "business" := rfl
  have e4 : pyLower "Landing Page" = "landing page" := rfl
  have e5 : pyLower "Restaurant" = "restaurant" := rfl
  have e6 : pyLower "Blog" = "blog" := rfl
  simp only [templates_db, List.filter_cons, List.filter_nil, e1, e2, e3, e4, e5, e6,
    beq_iff_eq]
  by_cases h1 : "e-commerce" = pyLower s
  · simp [← h1]
  · by_cases h2 : "portfolio" = pyLower s
    · simp [← h2]
    · by_cases h3 : "business" = pyLower s
      · simp [← h3]
      · by_cases h4 : "landing page" = pyLower s
        · simp [← h4]
        · by_cases h5 : "restaurant" = pyLower s
          · simp [← h5]
          · by_cases h6 : "blog" = pyLower s
            · simp [← h6]
            · simp [h1, h2, h3, h4, h5, h6]

/-- C9: the by-category endpoint returns the case-insensitive category
matches truncated to the first `limit` elements (for any integer
`limit`, which is never range-checked: a negative limit yields the
empty page because no category matches more than one entry), and
`total` is the full filtered count regardless of truncation. -/
theorem by_category_correct (category : String) (limit : Int) :
    (get_templates_by_category category limit).templates
        = (templates_db.filter (fun t => pyLower t.category == pyLower category)).take limit.toNat
      ∧ (get_templates_by_category category limit).total
          = (templates_db.filter (fun t => pyLower t.category == pyLower category)).length
      ∧ (get_templates_by_category category limit).category = category := by
  refine ⟨?_, rfl, rfl⟩
  rw [get_templates_by_category, pyTruncate]
  split
  · rfl
  · next hneg =>
      have hlen := filter_category_length_le_one category
      have h0 : limit.toNat = 0 := by omega
      have h1 : (1 : Nat) ≤ (-limit).toNat := by omega
      rw [h0, List.take_zero, List.take_eq_nil_iff]
      left
      omega

/-- The C5 invariant: at most one cart entry per template id. -/
def uniqueTemplateIds (cart : List CartItem) : Prop :=
  (cart.map (fun item => item.template_id)).Nodup

/-- Bumping the quantity of the first entry for a template id does not
change the stored template ids. -/
lemma map_template_id_incQuantity (template_id : Nat) (cart : List CartItem) :
    ((incQuantity template_id cart).map (fun item => item.template_id))
      = cart.map (fun item => item.template_id) := by
  induction cart with
  | nil => rfl
  | cons item rest ih =>
      rw [incQuantity]
      split <;> simp [ih]

/-- Setting the quantity of the first entry for an item id does not
change the stored template ids. -/
lemma map_template_id_setQuantity (item_id q : Nat) (cart : List CartItem) :
    ((setQuantity item_id q cart).map (fun item => item.template_id))
      = cart.map (fun item => item.template_id) := by
  induction cart with
  | nil => rfl
  | cons item rest ih =>
      rw [setQuantity]
      split <;> simp [ih]

/-- Every single request preserves the at-most-one-entry-per-template
invariant. -/
lemma applyOp_preserves_uniqueTemplateIds (cart : List CartItem) (op : CartOp)
    (h : uniqueTemplateIds cart) : uniqueTemplateIds (applyOp cart op) := by
  cases op with
  | add template_id now =>
      rw [applyOp]
      cases hres : add_to_cart cart template_id now with
      | error e => simp only [hres]; exact h
      | ok pair =>
          obtain ⟨item', cart'⟩ := pair
          simp only [hres]
          rw [add_to_cart] at hres
          cases hfind : templates_db.find? (fun t => t.id == template_id) with
          | none => rw [hfind] at hres; exact absurd hres (by simp)
          | some template =>
              rw [hfind] at hres
              cases hcart : cart.find? (fun item => item.template_id == template_id) with
              | some item =>
                  rw [hcart] at hres
                  obtain ⟨rfl, rfl⟩ : _ ∧ incQuantity template_id cart = cart' := by
                    simpa using hres
                  simpa [uniqueTemplateIds, map_template_id_incQuantity] using h
              | none =>
                  rw [hcart] at hres
                  obtain ⟨rfl, rfl⟩ : _ ∧ cart ++ [_] = cart' := by
                    simpa using hres
                  have hnone : ∀ item ∈ cart, item.template_id ≠ template_id := by
                    intro item hmem
                    have := List.find?_eq_none.mp hcart item hmem
                    simpa using this
                  rw [uniqueTemplateIds, List.map_append, List.nodup_append]
                  refine ⟨h, List.nodup_singleton _, ?_⟩
                  intro x hx hx'
                  simp only [List.map_cons, List.map_nil, List.mem_singleton] at hx'
                  subst hx'
                  obtain ⟨item, hmem, htid⟩ := List.mem_map.mp hx
                  exact hnone item hmem htid
  | update item_id quantity =>
      rw [applyOp]
      cases hres : update_cart_item cart item_id quantity with
      | error e => simp only [hres]; exact h
      | ok pair =>
          obtain ⟨item', cart'⟩ := pair
          simp only [hres]
          rw [update_cart_item] at hres
          split at hres
          · exact absurd hres (by simp)
          · cases hcart : cart.find? (fun item => item.id == item_id) with
            | none => rw [hcart] at hres; exact absurd hres (by simp)
            | some item =>
                rw [hcart] at hres
                obtain ⟨rfl, rfl⟩ : _ ∧ setQuantity item_id quantity.toNat cart = cart' := by
                  simpa using hres
                simpa [uniqueTemplateIds, map_template_id_setQuantity] using h
  | remove item_id =>
      rw [applyOp]
      cases hres : remove_from_cart cart item_id with
      | error e => simp only [hres]; exact h
      | ok cart' =>
          simp only [hres]
          rw [remove_from_cart] at hres
          split at hres
          · exact absurd hres (by simp)
          · obtain rfl : _ = cart' := by simpa using hres
            exact List.Nodup.sublist ((List.filter_sublist cart).map _) h
  | clear => simp [applyOp, clear_cart, uniqueTemplateIds]

/-- C5: any request sequence executed from the empty cart leaves at
most one cart entry per template id. -/
theorem cart_unique_template_ids (ops : List CartOp) : uniqueTemplateIds (runOps ops) := by
  suffices h : ∀ cart, uniqueTemplateIds cart → uniqueTemplateIds (ops.foldl applyOp cart) from
    h [] (by simp [uniqueTemplateIds])
  induction ops with
  | nil => exact fun cart h => h
  | cons op rest ih =>
      intro cart h
      exact ih (applyOp cart op) (applyOp_preserves_uniqueTemplateIds cart op h)

/-- Repeatedly adding template id 1 onto a cart whose single entry
already has that template id keeps one entry and bumps its quantity
once per request. -/
lemma foldl_add_replicate (now : String) (m : ℕ) :
    ∀ item : CartItem, item.template_id = 1 →
      (List.replicate m (CartOp.add 1 now)).foldl applyOp [item]
        = [{ item with quantity := item.quantity + m }] := by
  induction m with
  | zero => intro item h; simp
  | succ m ih =>
      intro item h
      rw [List.replicate_succ, List.foldl_cons]
      obtain ⟨t, hfind⟩ : ∃ t, templates_db.find? (fun t => t.id == 1) = some t := ⟨_, rfl⟩
      have hstep : applyOp [item] (CartOp.add 1 now)
          = [{ item with quantity := item.quantity + 1 }] := by
        simp [applyOp, add_to_cart, hfind, h, incQuantity]
      rw [hstep, ih _ (by simpa using h)]
      simp [Nat.add_assoc, Nat.add_comm 1 m]

/-- C7: repeated adds of an existing template id are unbounded (the
n-th add leaves quantity `n`, also beyond 10), while the
update-quantity endpoint only ever succeeds for quantities in
`[1, 10]`. -/
theorem quantity_unbounded_add_bounded_update :
    (∀ (n : ℕ) (now : String), 1 ≤ n →
        (runOps (List.replicate n (CartOp.add 1 now))).map
            (fun item => (item.template_id, item.quantity))
          = [(1, n)])
      ∧ (∀ (cart : List CartItem) (item_id : Nat) (quantity : Int),
          (∃ out, update_cart_item cart item_id quantity = .ok out) →
            1 ≤ quantity ∧ quantity ≤ 10) := by
  constructor
  · intro n now hn
    obtain ⟨m, rfl⟩ : ∃ m, n = m + 1 := ⟨n - 1, by omega⟩
    rw [runOps, List.replicate_succ, List.foldl_cons]
    obtain ⟨ci, hfirst, htid, hqty⟩ :
        ∃ ci, applyOp [] (CartOp.add 1 now) = [ci] ∧ ci.template_id = 1 ∧ ci.quantity = 1 :=
      ⟨_, rfl, rfl, rfl⟩
    rw [hfirst, foldl_add_replicate now m ci htid]
    simp [htid, hqty, Nat.add_comm 1 m]
  · intro cart item_id quantity ⟨out, hout⟩
    rw [update_cart_item] at hout
    split at hout
    · exact Except.noConfusion hout
    · next hcond =>
        push_neg at hcond
        omega

/-- Witness for C7: eleven adds of template 1 reach quantity 11 (past
the 10 bound), and a successful update with quantity 5 is within
bounds. -/
theorem quantity_unbounded_add_bounded_update_witness :
    (1 ≤ 11
        ∧ (runOps (List.replicate 11 (CartOp.add 1 "t"))).map
              (fun item => (item.template_id, item.quantity))
            = [(1, 11)])
      ∧ ((∃ out, update_cart_item (runOps [CartOp.add 1 "t"]) 1 5 = .ok out)
          ∧ 1 ≤ (5 : ℤ) ∧ (5 : ℤ) ≤ 10) :=
  ⟨⟨by decide, quantity_unbounded_add_bounded_update.1 11 "t" (by decide)⟩,
   ⟨⟨_, rfl⟩, quantity_unbounded_add_bounded_update.2 (runOps [CartOp.add 1 "t"]) 1 5 ⟨_, rfl⟩⟩⟩

/-- `List.isPrefixOf` on characters, characterized as an append
decomposition. -/
lemma isPrefixOf_eq_true_iff (needle : List Char) :
    ∀ hay : List Char, needle.isPrefixOf hay = true ↔ ∃ t, hay = needle ++ t := by
  induction needle with
  | nil => intro hay; simp [List.isPrefixOf]
  | cons c ns ih =>
      intro hay
      cases hay with
      | nil => simp [List.isPrefixOf]
      | cons d hs =>
          simp only [List.isPrefixOf, Bool.and_eq_true, beq_iff_eq, ih hs]
          constructor
          · rintro ⟨rfl, t, rfl⟩
            exact ⟨t, rfl⟩
          · rintro ⟨t, heq⟩
            injection heq with h1 h2
            exact ⟨h1.symm, t, h2⟩

/-- Python's `in` on character lists: `strContains` holds exactly when
the needle occurs contiguously, i.e. the haystack splits around it. -/
lemma strContains_iff (needle : List Char) :
    ∀ hay : List Char, strContains needle hay = true ↔ ∃ s t, hay = s ++ needle ++ t := by
  intro hay
  induction hay with
  | nil =>
      rw [strContains]
      constructor
      · intro h
        exact ⟨[], [], by simpa [List.isEmpty_iff] using h.symm⟩
      · rintro ⟨s, t, heq⟩
        have : s = [] ∧ needle = [] ∧ t = [] := by
          simpa [List.append_eq_nil] using heq.symm
        simp [this.2.1, List.isEmpty_iff]
  | cons c rest ih =>
      rw [strContains]
      simp only [Bool.or_eq_true, isPrefixOf_eq_true_iff, ih]
      constructor
      · rintro (⟨t, heq⟩ | ⟨s, t, heq⟩)
        · exact ⟨[], t, by simpa using heq⟩
        · exact ⟨c :: s, t, by simp [heq]⟩
      · rintro ⟨s, t, heq⟩
        cases s with
        | nil => exact Or.inl ⟨t, by simpa using heq⟩
        | cons c head =>
            injection heq with h1 h2
            exact Or.inr ⟨head, t, h2⟩

/-- The match test holds exactly when the lower-cased query occurs in
the lower-cased title, description, or some tag. -/
lemma matchesQuery_iff (q : String) (t : Template) :
    matchesQuery q t = true ↔
      ((∃ l r, (pyLower t.title).data = l ++ (pyLower q).data ++ r)
        ∨ (∃ l r, (pyLower t.description).data = l ++ (pyLower q).data ++ r)
        ∨ (∃ tag ∈ t.tags, ∃ l r, (pyLower tag).data = l ++ (pyLower q).data ++ r)) := by
  rw [matchesQuery]
  simp only [Bool.or_eq_true, strContains_iff, List.any_eq_true]
  exact or_assoc

/-- The `continue` guards hold exactly when every supplied filter
accepts the template (an empty category string is falsy in Python and
filters nothing). -/
lemma passesFilters_iff (category : Option String) (min_price max_price min_rating : Option ℚ)
    (t : Template) :
    passesFilters category min_price max_price min_rating t = true ↔
      ((∀ c, category = some c → c ≠ "" → pyLower t.category = pyLower c)
        ∧ (∀ m, min_price = some m → m ≤ t.price)
        ∧ (∀ m, max_price = some m → t.price ≤ m)
        ∧ (∀ m, min_rating = some m → m ≤ t.rating)) := by
  rw [passesFilters.eq_def]
  cases category with
  | none => cases min_price <;> cases max_price <;> cases min_rating <;> simp [not_lt, and_assoc]
  | some c =>
      by_cases hc : c = "" <;>
        cases min_price <;> cases max_price <;> cases min_rating <;>
          simp [hc, not_lt, beq_iff_eq, and_assoc]

/-- C3: search returns exactly the templates in which the query occurs
case-insensitively in title, description, or a tag and which pass all
supplied filters, in catalog order without pagination, with `total`
the number of results; for `q = "modern"` on the seed data the results
are ModernShop Pro and Tech Startup Kit. -/
theorem search_matches_exactly (q : String) (category : Option String)
    (min_price max_price min_rating : Option ℚ) (_hq : q ≠ "") :
    (∀ t, t ∈ (search_templates q category min_price max_price min_rating).results ↔
        (t ∈ templates_db
          ∧ ((∃ l r, (pyLower t.title).data = l ++ (pyLower q).data ++ r)
              ∨ (∃ l r, (pyLower t.description).data = l ++ (pyLower q).data ++ r)
              ∨ (∃ tag ∈ t.tags, ∃ l r, (pyLower tag).data = l ++ (pyLower q).data ++ r))
          ∧ (∀ c, category = some c → c ≠ "" → pyLower t.category = pyLower c)
          ∧ (∀ m, min_price = some m → m ≤ t.price)
          ∧ (∀ m, max_price = some m → t.price ≤ m)
          ∧ (∀ m, min_rating = some m → m ≤ t.rating)))
      ∧ List.Sublist (search_templates q category min_price max_price min_rating).results
          templates_db
      ∧ (search_templates q category min_price max_price min_rating).total
          = (search_templates q category min_price max_price min_rating).results.length
      ∧ (search_templates "modern" none none none none).results.map (fun t => t.title)
          = ["ModernShop Pro", "Tech Startup Kit"] := by
  have hres : (search_templates q category min_price max_price min_rating).results
      = templates_db.filter
          (fun t => matchesQuery q t
            && passesFilters category min_price max_price min_rating t) := rfl
  refine ⟨?_, ?_, rfl, by rfl⟩
  · intro t
    rw [hres]
    simp only [List.mem_filter, Bool.and_eq_true, matchesQuery_iff, passesFilters_iff]
  · rw [hres]
    exact List.filter_sublist templates_db

/-- Witness for C3 at the non-empty query "modern". -/
theorem search_matches_exactly_witness :
    "modern" ≠ ""
      ∧ (search_templates "modern" none none none none).results.map (fun t => t.title)
          = ["ModernShop Pro", "Tech Startup Kit"] :=
  ⟨by decide, (search_matches_exactly "modern" none none none none (by decide)).2.2.2⟩

/-- The key comparison of every sort field is transitive. -/
lemma fieldLe_trans (sb : SortBy) (a b c : Template)
    (h1 : fieldLe sb a b = true) (h2 : fieldLe sb b c = true) : fieldLe sb a c = true := by
  cases sb <;> simp only [fieldLe, decide_eq_true_iff] at h1 h2 ⊢ <;> exact le_trans h1 h2

/-- The key comparison of every sort field is total. -/
lemma fieldLe_total (sb : SortBy) (a b : Template) :
    (fieldLe sb a b || fieldLe sb b a) = true := by
  cases sb <;> simp only [fieldLe, Bool.or_eq_true, decide_eq_true_iff] <;> exact le_total _ _

/-- The oriented comparison is transitive. -/
lemma sortLe_trans (sb : SortBy) (ord : SortOrder) :
    ∀ a b c : Template, sortLe sb ord a b → sortLe sb ord b c → sortLe sb ord a c := by
  cases ord with
  | asc => exact fun a b c h1 h2 => fieldLe_trans sb a b c h1 h2
  | desc => exact fun a b c h1 h2 => fieldLe_trans sb c b a h2 h1

/-- The oriented comparison is total. -/
lemma sortLe_total (sb : SortBy) (ord : SortOrder) :
    ∀ a b : Template, (sortLe sb ord a b || sortLe sb ord b a) = true := by
  cases ord with
  | asc => exact fun a b => fieldLe_total sb a b
  | desc => exact fun a b => by rw [sortLe, sortLe, Bool.or_comm]; exact fieldLe_total sb a b

unseal List.merge List.mergeSort in
/-- C2, counterexample to the spec example: sorting by price ascending
does not put Restaurant Pro (79) before Creative Portfolio (69). -/
theorem price_asc_spec_example_false :
    ¬ (((get_templates none 10 0 .price .asc).templates.map (fun t => (t.title, t.price))).take 3
        = [("Blog Master", (49 : ℚ)), ("Restaurant Pro", 79), ("Creative Portfolio", 69)]) := by
  decide

unseal List.merge List.mergeSort in
/-- C2 (amended): every page of the list endpoint is monotonic in the
chosen sort field (non-decreasing for asc, non-increasing for desc);
the stable sort keeps any tied pair in its pre-sort (catalog) order;
and sorting the seed catalog by price ascending yields Blog Master 49,
Creative Portfolio 69, Restaurant Pro 79, ModernShop Pro 89, Business
Suite 129, Tech Startup Kit 149. -/
theorem sort_monotonic_stable_price_order :
    (∀ (category : Option String) (limit offset : Nat) (sb : SortBy),
        ((get_templates category limit offset sb .asc).templates).Pairwise
            (fun a b => fieldLe sb a b = true)
          ∧ ((get_templates category limit offset sb .desc).templates).Pairwise
              (fun a b => fieldLe sb b a = true))
      ∧ (∀ (l : List Template) (sb : SortBy) (ord : SortOrder) (a b : Template),
          List.Sublist [a, b] l → fieldEq sb a b = true →
            List.Sublist [a, b] (l.mergeSort (sortLe sb ord)))
      ∧ ((get_templates none 10 0 .price .asc).templates.map (fun t => (t.title, t.price))
          = [("Blog Master", (49 : ℚ)), ("Creative Portfolio", 69), ("Restaurant Pro", 79),
             ("ModernShop Pro", 89), ("Business Suite", 129), ("Tech Startup Kit", 149)]) := by
  refine ⟨?_, ?_, by rfl⟩
  · intro category limit offset sb
    constructor
    · have hsorted := List.sorted_mergeSort
        (sortLe_trans sb .asc) (sortLe_total sb .asc) (applyCategory category templates_db)
      have hsub : List.Sublist (get_templates category limit offset sb .asc).templates
          ((applyCategory category templates_db).mergeSort (sortLe sb .asc)) :=
        (List.take_sublist _ _).trans (List.drop_sublist _ _)
      exact hsorted.sublist hsub
    · have hsorted := List.sorted_mergeSort
        (sortLe_trans sb .desc) (sortLe_total sb .desc) (applyCategory category templates_db)
      have hsub : List.Sublist (get_templates category limit offset sb .desc).templates
          ((applyCategory category templates_db).mergeSort (sortLe sb .desc)) :=
        (List.take_sublist _ _).trans (List.drop_sublist _ _)
      exact hsorted.sublist hsub
  · intro l sb ord a b hsub htie
    rw [fieldEq, Bool.and_eq_true] at htie
    have hle : sortLe sb ord a b = true := by
      cases ord
      · exact htie.1
      · exact htie.2
    have hpw : List.Pairwise (fun x y => sortLe sb ord x y = true) [a, b] := by
      simp [List.pairwise_cons, hle]
    exact List.sublist_mergeSort (sortLe_trans sb ord) (sortLe_total sb ord) hpw hsub

/-- Witness for C2 (amended): a duplicated first template ties with
itself on price and the stable sort keeps the pair in order. -/
theorem sort_monotonic_stable_price_order_witness :
    List.Sublist [templates_db.headI, templates_db.headI]
        [templates_db.headI, templates_db.headI]
      ∧ fieldEq SortBy.price templates_db.headI templates_db.headI = true
      ∧ List.Sublist [templates_db.headI, templates_db.headI]
          (([templates_db.headI, templates_db.headI]).mergeSort
            (sortLe SortBy.price SortOrder.asc)) :=
  ⟨List.Sublist.refl _, by decide,
   sort_monotonic_stable_price_order.2.1 [templates_db.headI, templates_db.headI]
     SortBy.price SortOrder.asc templates_db.headI templates_db.headI
     (List.Sublist.refl _) (by decide)⟩

end WebMarket
